import Mathlib

/-!
Verification of the IoT data-manager ingestion/alerting pipeline
(`src/iot/mqtt_data_manager.py`, class `IoTDataManager`), as a shallow
embedding in Lean 4.

Modelling conventions:
* Python floats are modelled as rationals (`ℚ`).
* A raw JSON scalar handed to the validator is a `RawVal`: either a value on
  which Python's `float(...)` succeeds (`num q`), or one on which it raises
  `ValueError`/`TypeError` (`bad s`).
* `dict.get` is modelled by `Option`.
* SQLite tables are modelled as Lean lists of row structures; a `DELETE`
  with a `WHERE` clause is a filter, `cursor.rowcount` is the number of rows
  affected by the most recent statement.
* Operations whose `try/except` the claims exercise take the fallible part
  as an `Except` value; operations whose failure path no claim exercises are
  modelled on their success path.
-/

namespace IoTDataManager

/-- A raw JSON scalar as the validator sees it: `num q` when Python's
`float(value)` succeeds and returns `q`; `bad s` when it raises. -/
inductive RawVal where
  | num (q : ℚ)
  | bad (s : String)
deriving DecidableEq

/-- The nested `location` dictionary of a payload; `dict.get` of a missing
key is `none`. -/
structure RawLocation where
  lat : Option RawVal
  lon : Option RawVal
deriving DecidableEq

/-- A parsed JSON payload restricted to the keys `_validate_sensor_data`
reads: the seven range-checked sensor fields and the nested location. -/
structure RawData where
  temperature : Option RawVal
  humidity : Option RawVal
  soil_moisture : Option RawVal
  ph_level : Option RawVal
  light_intensity : Option RawVal
  battery_level : Option RawVal
  signal_strength : Option RawVal
  location : Option RawLocation
deriving DecidableEq

/-- Python's `float(value)` on a raw scalar: the numeric value, or failure. -/
def pyFloat : RawVal → Option ℚ
  | .num q => some q
  | .bad _ => none

/-- One iteration of the validation loop in `_validate_sensor_data`: for a
field with documented range `[lo, hi]`, an absent value stays `None`, a value
on which `float` raises becomes `None`, an out-of-range value becomes `None`
(with a warning logged), and an in-range value is kept. -/
def validateField (lo hi : ℚ) (v : Option RawVal) : Option ℚ :=
  match v with
  | none => none
  | some rv =>
    match pyFloat rv with
    | none => none
    | some q => if lo ≤ q ∧ q ≤ hi then some q else none

/-- The dictionary `_validate_sensor_data` returns (minus `data_quality`,
which is appended after the quality computation): seven validated numeric
fields plus the latitude/longitude values copied verbatim from the nested
location structure. -/
structure Validated where
  temperature : Option ℚ
  humidity : Option ℚ
  soil_moisture : Option ℚ
  ph_level : Option ℚ
  light_intensity : Option ℚ
  battery_level : Option ℚ
  signal_strength : Option ℚ
  latitude : Option RawVal
  longitude : Option RawVal
  data_quality : ℚ
deriving DecidableEq

/-- Embedding of `IoTDataManager._validate_sensor_data`: range-validate the seven sensor
fields against the ranges dictionary, flatten `location.lat`/`location.lon`
unchanged, then set `data_quality` to the fraction of non-null entries among
the dictionary's entries at that point (the nine fields above). -/
def validate_sensor_data (data : RawData) : Validated :=
  let temperature := validateField (-50) 60 data.temperature
  let humidity := validateField 0 100 data.humidity
  let soil_moisture := validateField 0 100 data.soil_moisture
  let ph_level := validateField 0 14 data.ph_level
  let light_intensity := validateField 0 2000 data.light_intensity
  let battery_level := validateField 0 100 data.battery_level
  let signal_strength := validateField (-120) 0 data.signal_strength
  let latitude : Option RawVal :=
    match data.location with
    | some l => l.lat
    | none => none
  let longitude : Option RawVal :=
    match data.location with
    | some l => l.lon
    | none => none
  let flags : List Bool :=
    [temperature.isSome, humidity.isSome, soil_moisture.isSome,
     ph_level.isSome, light_intensity.isSome, battery_level.isSome,
     signal_strength.isSome, latitude.isSome, longitude.isSome]
  let valid_count : ℕ := flags.count true
  let total_count : ℕ := flags.length
  { temperature := temperature
    humidity := humidity
    soil_moisture := soil_moisture
    ph_level := ph_level
    light_intensity := light_intensity
    battery_level := battery_level
    signal_strength := signal_strength
    latitude := latitude
    longitude := longitude
    data_quality :=
      if total_count > 0 then (valid_count : ℚ) / (total_count : ℚ) else 0 }

/-- Rendering of a Python float into an f-string. The claims evaluate it
only at integral values, where Python prints `4.0` for the float `4.0`;
non-integral rationals are rendered as a fraction (Python's shortest
round-trip decimal rendering is not modelled). -/
def pyNumStr (q : ℚ) : String :=
  if q.den = 1 then toString q.num ++ ".0"
  else toString q.num ++ "/" ++ toString q.den

/-- Whether `sub` occurs as a contiguous run inside the character list. -/
def listContains (sub : List Char) : List Char → Bool
  | [] => sub.isEmpty
  | c :: rest => sub.isPrefixOf (c :: rest) || listContains sub rest

/-- Substring containment on strings (Python's `in` operator). -/
def strContains (s sub : String) : Bool :=
  listContains sub.data s.data

/-- The temperature block of `_check_alert_conditions`: `temp < 5` and
`temp > 40` are critical, otherwise `temp < 10 or temp > 35` is a warning;
a null temperature produces nothing. Each alert is a (severity, message)
pair exactly as appended to the `alerts` list. -/
def temperatureAlerts : Option ℚ → List (String × String)
  | none => []
  | some temp =>
    if temp < 5 then
      [("critical", "Critically low temperature: " ++ pyNumStr temp ++ "°C")]
    else if temp > 40 then
      [("critical", "Critically high temperature: " ++ pyNumStr temp ++ "°C")]
    else if temp < 10 ∨ temp > 35 then
      [("warning", "Temperature out of optimal range: " ++ pyNumStr temp ++ "°C")]
    else []

/-- The soil-moisture block of `_check_alert_conditions`. -/
def soilMoistureAlerts : Option ℚ → List (String × String)
  | none => []
  | some moisture =>
    if moisture < 20 then
      [("critical", "Critical low soil moisture: " ++ pyNumStr moisture ++ "%")]
    else if moisture < 30 then
      [("warning", "Low soil moisture: " ++ pyNumStr moisture ++ "%")]
    else if moisture > 80 then
      [("warning", "High soil moisture: " ++ pyNumStr moisture ++ "%")]
    else []

/-- The pH block of `_check_alert_conditions`. -/
def phAlerts : Option ℚ → List (String × String)
  | none => []
  | some ph =>
    if ph < 55/10 ∨ ph > 8 then
      [("warning", "pH level out of optimal range: " ++ pyNumStr ph)]
    else []

/-- The battery block of `_check_alert_conditions`. -/
def batteryAlerts : Option ℚ → List (String × String)
  | none => []
  | some battery =>
    if battery < 10 then
      [("critical", "Critical low battery: " ++ pyNumStr battery ++ "%")]
    else if battery < 20 then
      [("warning", "Low battery: " ++ pyNumStr battery ++ "%")]
    else []

/-- Embedding of `IoTDataManager._check_alert_conditions`: the list of (severity,
message) pairs appended for a normalized reading, in source order; each is
then stored via `_store_alert`. -/
def check_alert_conditions (s : Validated) : List (String × String) :=
  temperatureAlerts s.temperature ++ soilMoistureAlerts s.soil_moisture ++
    phAlerts s.ph_level ++ batteryAlerts s.battery_level

/-- A raw reading carrying only a temperature value. -/
def tempOnlyReading (t : ℚ) : RawData :=
  { temperature := some (.num t), humidity := none, soil_moisture := none,
    ph_level := none, light_intensity := none, battery_level := none,
    signal_strength := none, location := none }

/-- Index of the seven range-checked sensor fields, mirroring the keys of
the `ranges` dictionary in `_validate_sensor_data`. -/
inductive FieldId where
  | temperature
  | humidity
  | soil_moisture
  | ph_level
  | light_intensity
  | battery_level
  | signal_strength
deriving DecidableEq

/-- The `(min_val, max_val)` entry of the `ranges` dictionary. -/
def fieldRange : FieldId → ℚ × ℚ
  | .temperature => (-50, 60)
  | .humidity => (0, 100)
  | .soil_moisture => (0, 100)
  | .ph_level => (0, 14)
  | .light_intensity => (0, 2000)
  | .battery_level => (0, 100)
  | .signal_strength => (-120, 0)

/-- Lookup `data.get(field)` for a range-checked field. -/
def rawField : FieldId → RawData → Option RawVal
  | .temperature => RawData.temperature
  | .humidity => RawData.humidity
  | .soil_moisture => RawData.soil_moisture
  | .ph_level => RawData.ph_level
  | .light_intensity => RawData.light_intensity
  | .battery_level => RawData.battery_level
  | .signal_strength => RawData.signal_strength

/-- Lookup `validated[field]` for a range-checked field. -/
def validatedField : FieldId → Validated → Option ℚ
  | .temperature => Validated.temperature
  | .humidity => Validated.humidity
  | .soil_moisture => Validated.soil_moisture
  | .ph_level => Validated.ph_level
  | .light_intensity => Validated.light_intensity
  | .battery_level => Validated.battery_level
  | .signal_strength => Validated.signal_strength

/-- Outcome of `json.loads` on a queued payload: a parsed reading, or the
`JSONDecodeError` message it raises on text that is not valid JSON. -/
inductive PayloadV where
  | json (d : RawData)
  | malformed (e : String)
deriving DecidableEq

/-- The dictionary `_on_message` puts on `data_queue`: topic, payload,
receive timestamp, QoS. -/
structure QMsg where
  topic : String
  payload : PayloadV
  timestamp : ℚ
  qos : ℕ
deriving DecidableEq

/-- Python's `queue.Queue.full()`: true when the queue has a positive `maxsize` and
holds at least `maxsize` items (a non-positive `maxsize` means an infinite
queue in Python, never full). -/
def queueFull (maxsize : ℕ) (q : List QMsg) : Bool :=
  decide (0 < maxsize) && decide (maxsize ≤ q.length)

/-- The enqueue path of `_on_message`: `if not self.data_queue.full():
put(...)` else drop the message (and log a warning). Never blocks. -/
def enqueue (maxsize : ℕ) (q : List QMsg) (m : QMsg) : List QMsg :=
  if queueFull maxsize q then q else q ++ [m]

/-- The drain loop of `_data_processing_loop` (`while not empty:
get_nowait()`): removes and yields every queued message in FIFO order. -/
def drain (q : List QMsg) : List QMsg := q

/-- A row of the `sensor_data` table. -/
structure SensorRow where
  id : ℕ
  timestamp : ℚ
  device_id : String
  temperature : Option ℚ
  humidity : Option ℚ
  soil_moisture : Option ℚ
  ph_level : Option ℚ
  light_intensity : Option ℚ
  latitude : Option RawVal
  longitude : Option RawVal
  battery_level : Option ℚ
  signal_strength : Option ℚ
  data_quality : ℚ
  raw_json : PayloadV
  processed : Bool
deriving DecidableEq

/-- A row of the `alerts` table. -/
structure AlertRow where
  id : ℕ
  timestamp : ℚ
  device_id : String
  alert_type : String
  severity : String
  message : String
  acknowledged : Bool
deriving DecidableEq

/-- The two tables of the SQLite store. -/
structure DB where
  sensor_data : List SensorRow
  alerts : List AlertRow
deriving DecidableEq

/-- Embedding of `IoTDataManager._cleanup_old_data`: `DELETE FROM sensor_data WHERE
timestamp < datetime('now', '-N days')`, then the same `DELETE` on
`alerts`; `deleted` is `cursor.rowcount` after the second `DELETE`, i.e.
the number of alert rows removed; it is logged when positive. Timestamps
are modelled in days, `now` being the current time. Returns the updated
tables, `deleted`, and the log lines emitted. -/
def cleanup_old_data (now : ℚ) (retention_days : ℕ) (db : DB) :
    DB × ℕ × List String :=
  let horizon : ℚ := now - retention_days
  let newSensor := db.sensor_data.filter fun r => !decide (r.timestamp < horizon)
  let newAlerts := db.alerts.filter fun r => !decide (r.timestamp < horizon)
  let deleted := (db.alerts.filter fun r => decide (r.timestamp < horizon)).length
  (⟨newSensor, newAlerts⟩, deleted,
    if deleted > 0 then
      ["Cleaned up " ++ toString deleted ++ " old records"]
    else [])

/-- Insert into a list sorted by descending timestamp (`ts` projects the
timestamp), keeping earlier elements first among equal timestamps. -/
def insertDescBy {α : Type} (ts : α → ℚ) (a : α) : List α → List α
  | [] => [a]
  | b :: l => if ts b < ts a then a :: b :: l else b :: insertDescBy ts a l

/-- Sorting `ORDER BY timestamp DESC` as an insertion sort. -/
def sortDescBy {α : Type} (ts : α → ℚ) (l : List α) : List α :=
  l.foldr (insertDescBy ts) []

/-- The SQL body of `get_active_alerts`: `WHERE acknowledged = 0 ORDER BY
timestamp DESC LIMIT 20`. -/
def activeAlertsQuery (alerts : List AlertRow) : List AlertRow :=
  (sortDescBy AlertRow.timestamp
    (alerts.filter fun r => r.acknowledged == false)).take 20

/-- Embedding of `IoTDataManager.get_active_alerts`: the whole body runs under
`try/except`; the argument is the outcome of connecting and querying the
store — on any failure the error is logged and `[]` is returned. -/
def get_active_alerts (conn : Except String (List AlertRow)) :
    List AlertRow :=
  match conn with
  | .ok alerts => activeAlertsQuery alerts
  | .error _ => []

/-- The SQL body of `get_latest_data`: with a device filter, `WHERE
device_id = ? ORDER BY timestamp DESC LIMIT 10`; otherwise `ORDER BY
timestamp DESC LIMIT 50`. -/
def latestDataQuery (rows : List SensorRow) (device_id : Option String) :
    List SensorRow :=
  match device_id with
  | some dev =>
    (sortDescBy SensorRow.timestamp
      (rows.filter fun r => r.device_id == dev)).take 10
  | none => (sortDescBy SensorRow.timestamp rows).take 50

/-- Embedding of `IoTDataManager.get_latest_data`: the whole body runs under
`try/except`; on any storage failure the error is logged and `[]` is
returned. -/
def get_latest_data (conn : Except String (List SensorRow))
    (device_id : Option String) : List SensorRow :=
  match conn with
  | .ok rows => latestDataQuery rows device_id
  | .error _ => []

/-- Embedding of `IoTDataManager.acknowledge_alert`: `UPDATE alerts SET acknowledged = 1
WHERE id = ?`. -/
def acknowledge_alert (alert_id : ℕ) (alerts : List AlertRow) :
    List AlertRow :=
  alerts.map fun r =>
    if r.id = alert_id then { r with acknowledged := true } else r

/-- The manager's mutable statistics relevant to message processing (the
remaining `stats` entries are a wall-clock time and a connection string). -/
structure Stats where
  messages_received : ℕ
  messages_processed : ℕ
deriving DecidableEq

/-- Manager state touched by `_process_sensor_message`: statistics, the
store, and the log. -/
structure MgrState where
  stats : Stats
  db : DB
  logs : List String
deriving DecidableEq

/-- Embedding of `IoTDataManager._store_alert` on the success path: append an alert row
(auto-increment id, `CURRENT_TIMESTAMP` modelled by `now`, acknowledged
defaulting to false) and log the generation message. -/
def store_alert (now : ℚ) (device_id : String)
    (acc : DB × List String) (sm : String × String) : DB × List String :=
  ({ acc.1 with
      alerts := acc.1.alerts ++
        [{ id := acc.1.alerts.length + 1, timestamp := now,
           device_id := device_id, alert_type := "sensor_threshold",
           severity := sm.1, message := sm.2, acknowledged := false }] },
   acc.2 ++
     ["Alert generated for " ++ device_id ++ ": " ++ sm.1 ++ " - " ++ sm.2])

/-- Embedding of `IoTDataManager._process_sensor_message`: parse the payload — a
`json.JSONDecodeError` is caught, logged, and the message discarded —
otherwise extract the device id from the topic's third segment, validate,
store the reading (success path), store each generated alert, and increment
`messages_processed`. `now` models the store's `CURRENT_TIMESTAMP` default
used for alert rows. -/
def process_sensor_message (now : ℚ) (st : MgrState) (msg : QMsg) :
    MgrState :=
  match msg.payload with
  | .malformed e =>
    { st with logs := st.logs ++ ["Invalid JSON in message: " ++ e] }
  | .json data =>
    let topic_parts := msg.topic.splitOn "/"
    let device_id :=
      if topic_parts.length > 2 then topic_parts.getD 2 "unknown"
      else "unknown"
    let sensor := validate_sensor_data data
    let row : SensorRow :=
      { id := st.db.sensor_data.length + 1, timestamp := msg.timestamp,
        device_id := device_id, temperature := sensor.temperature,
        humidity := sensor.humidity, soil_moisture := sensor.soil_moisture,
        ph_level := sensor.ph_level,
        light_intensity := sensor.light_intensity,
        latitude := sensor.latitude, longitude := sensor.longitude,
        battery_level := sensor.battery_level,
        signal_strength := sensor.signal_strength,
        data_quality := sensor.data_quality, raw_json := msg.payload,
        processed := false }
    let alerts := check_alert_conditions sensor
    let stored := alerts.foldl (store_alert now device_id)
      ({ st.db with sensor_data := st.db.sensor_data ++ [row] }, st.logs)
    { stats := { st.stats with
        messages_processed := st.stats.messages_processed + 1 },
      db := stored.1, logs := stored.2 }

/-- The per-tick batch loop of `_data_processing_loop`: process every
drained message in FIFO order. -/
def process_queued (now : ℚ) (st : MgrState) (msgs : List QMsg) : MgrState :=
  msgs.foldl (process_sensor_message now) st


/-- A sensor row with a given id and timestamp and no sensor values, for
concrete store instances. -/
def mkSensorRow (i : ℕ) (ts : ℚ) : SensorRow :=
  { id := i, timestamp := ts, device_id := "dev1", temperature := none,
    humidity := none, soil_moisture := none, ph_level := none,
    light_intensity := none, latitude := none, longitude := none,
    battery_level := none, signal_strength := none, data_quality := 0,
    raw_json := .malformed "x", processed := false }

/-- An alert row with a given id, timestamp and acknowledged flag, for
concrete store instances. -/
def mkAlertRow (i : ℕ) (ts : ℚ) (ack : Bool) : AlertRow :=
  { id := i, timestamp := ts, device_id := "dev1",
    alert_type := "sensor_threshold", severity := "critical",
    message := "m", acknowledged := ack }

/-- C1: a raw reading in which every recognized field is present — the seven
range-checked fields with numeric values inside their documented inclusive
ranges, and a location structure with non-null `lat`/`lon` — validates to an
output equal to the input on every field, with quality score
`9 / 9 = 1.0`. -/
theorem C1_validator_perfect_reading (data : RawData)
    (t h m p li b s : ℚ) (lv ln : RawVal)
    (ht : data.temperature = some (.num t)) (htr : -50 ≤ t ∧ t ≤ 60)
    (hh : data.humidity = some (.num h)) (hhr : 0 ≤ h ∧ h ≤ 100)
    (hm : data.soil_moisture = some (.num m)) (hmr : 0 ≤ m ∧ m ≤ 100)
    (hp : data.ph_level = some (.num p)) (hpr : 0 ≤ p ∧ p ≤ 14)
    (hli : data.light_intensity = some (.num li)) (hlir : 0 ≤ li ∧ li ≤ 2000)
    (hb : data.battery_level = some (.num b)) (hbr : 0 ≤ b ∧ b ≤ 100)
    (hs : data.signal_strength = some (.num s)) (hsr : -120 ≤ s ∧ s ≤ 0)
    (hloc : data.location = some ⟨some lv, some ln⟩) :
    (validate_sensor_data data).temperature = some t ∧
    (validate_sensor_data data).humidity = some h ∧
    (validate_sensor_data data).soil_moisture = some m ∧
    (validate_sensor_data data).ph_level = some p ∧
    (validate_sensor_data data).light_intensity = some li ∧
    (validate_sensor_data data).battery_level = some b ∧
    (validate_sensor_data data).signal_strength = some s ∧
    (validate_sensor_data data).latitude = some lv ∧
    (validate_sensor_data data).longitude = some ln ∧
    (validate_sensor_data data).data_quality = 1 := by
  simp only [validate_sensor_data, validateField, pyFloat, ht, hh, hm, hp,
    hli, hb, hs, hloc]
  rw [if_pos htr, if_pos hhr, if_pos hmr, if_pos hpr, if_pos hlir,
    if_pos hbr, if_pos hsr]
  norm_num

/-- Witness for C1 at a concrete in-range reading. -/
theorem C1_validator_perfect_reading_witness :
    (validate_sensor_data
      { temperature := some (.num 20), humidity := some (.num 50),
        soil_moisture := some (.num 40), ph_level := some (.num 7),
        light_intensity := some (.num 500), battery_level := some (.num 90),
        signal_strength := some (.num (-60)),
        location := some ⟨some (.num 1), some (.num 2)⟩ }).data_quality = 1 :=
  (C1_validator_perfect_reading _ 20 50 40 7 500 90 (-60) (.num 1) (.num 2)
    rfl (by norm_num) rfl (by norm_num) rfl (by norm_num) rfl (by norm_num)
    rfl (by norm_num) rfl (by norm_num) rfl (by norm_num) rfl).2.2.2.2.2.2.2.2.2

/-- C2: for a normalized reading with non-null temperature `t`, the alert
engine's temperature rule yields exactly one critical alert when `t < 5` or
`t > 40`, exactly one warning alert when `t ∈ [5,10)` or `t ∈ (35,40]`, and
no temperature alert when `t ∈ [10,35]`; concretely, a reading with only
temperature 4 yields exactly one alert, critical, whose message contains
"temperature" and "4", and a reading with only temperature 25 yields zero
alerts. -/
theorem C2_temperature_alert_bands (t : ℚ) :
    ((t < 5 ∨ t > 40) →
      ∃ msg, temperatureAlerts (some t) = [("critical", msg)]) ∧
    (((5 ≤ t ∧ t < 10) ∨ (35 < t ∧ t ≤ 40)) →
      ∃ msg, temperatureAlerts (some t) = [("warning", msg)]) ∧
    ((10 ≤ t ∧ t ≤ 35) → temperatureAlerts (some t) = []) ∧
    ((check_alert_conditions (validate_sensor_data (tempOnlyReading 4))).length
        = 1 ∧
      ∀ a ∈ check_alert_conditions (validate_sensor_data (tempOnlyReading 4)),
        a.1 = "critical" ∧ strContains a.2 "temperature" = true ∧
          strContains a.2 "4" = true) ∧
    check_alert_conditions (validate_sensor_data (tempOnlyReading 25)) = [] := by
  refine ⟨?_, ?_, ?_, ⟨?_, ?_⟩, ?_⟩
  · rintro (h | h)
    · exact ⟨"Critically low temperature: " ++ pyNumStr t ++ "°C",
        by simp [temperatureAlerts, if_pos h]⟩
    · have h5 : ¬ t < 5 := by linarith
      exact ⟨"Critically high temperature: " ++ pyNumStr t ++ "°C",
        by simp [temperatureAlerts, if_neg h5, if_pos h]⟩
  · rintro (⟨h1, h2⟩ | ⟨h1, h2⟩)
    · have h5 : ¬ t < 5 := by linarith
      have h40 : ¬ t > 40 := by linarith
      exact ⟨"Temperature out of optimal range: " ++ pyNumStr t ++ "°C",
        by simp [temperatureAlerts, if_neg h5, if_neg h40, if_pos (Or.inl h2)]⟩
    · have h5 : ¬ t < 5 := by linarith
      have h40 : ¬ t > 40 := by linarith
      exact ⟨"Temperature out of optimal range: " ++ pyNumStr t ++ "°C",
        by simp [temperatureAlerts, if_neg h5, if_neg h40, if_pos (Or.inr h1)]⟩
  · rintro ⟨h1, h2⟩
    have h5 : ¬ t < 5 := by linarith
    have h40 : ¬ t > 40 := by linarith
    have hw : ¬ (t < 10 ∨ t > 35) := by push_neg; exact ⟨by linarith, by linarith⟩
    simp [temperatureAlerts, if_neg h5, if_neg h40, if_neg hw]
  · decide
  · decide
  · decide

/-- Witness for C2 at concrete temperatures in each band. -/
theorem C2_temperature_alert_bands_witness :
    (∃ msg, temperatureAlerts (some 4) = [("critical", msg)]) ∧
    (∃ msg, temperatureAlerts (some 37) = [("warning", msg)]) ∧
    temperatureAlerts (some 25) = [] :=
  ⟨(C2_temperature_alert_bands 4).1 (Or.inl (by norm_num)),
   (C2_temperature_alert_bands 37).2.1 (Or.inr ⟨by norm_num, by norm_num⟩),
   (C2_temperature_alert_bands 25).2.2.1 ⟨by norm_num, by norm_num⟩⟩

/-- Enqueuing a batch that fits under capacity appends it in order. -/
theorem foldl_enqueue_append (C : ℕ) (msgs : List QMsg) (q : List QMsg)
    (h : q.length + msgs.length ≤ C) :
    msgs.foldl (enqueue C) q = q ++ msgs := by
  induction msgs generalizing q with
  | nil => simp
  | cons m rest ih =>
    simp only [List.length_cons] at h
    have hlen : q.length < C := by omega
    have hq : queueFull C q = false := by
      simp [queueFull, Nat.not_le.mpr hlen]
    rw [List.foldl_cons, enqueue, hq]
    simp only [Bool.false_eq_true, if_false]
    rw [ih (q ++ [m]) (by simp; omega)]
    simp

/-- C3: enqueuing C messages into an empty Ingestion Queue of capacity
C > 0 leaves exactly those messages; a further enqueue drops its message
(the queue is unchanged, so the operation cannot block), a subsequent drain
delivers the earlier C messages in FIFO order, and the dropped message
never appears in that drain. -/
theorem C3_full_queue_drops (C : ℕ) (msgs : List QMsg) (extra : QMsg)
    (hC : 0 < C) (hlen : msgs.length = C) (hx : extra ∉ msgs) :
    msgs.foldl (enqueue C) [] = msgs ∧
    enqueue C (msgs.foldl (enqueue C) []) extra = msgs ∧
    drain (enqueue C (msgs.foldl (enqueue C) []) extra) = msgs ∧
    extra ∉ drain (enqueue C (msgs.foldl (enqueue C) []) extra) := by
  have h1 : msgs.foldl (enqueue C) [] = msgs := by
    have h := foldl_enqueue_append C msgs [] (by simp [hlen])
    simpa using h
  have hfull : queueFull C msgs = true := by
    simp [queueFull, hlen, hC]
  have h2 : enqueue C msgs extra = msgs := by
    rw [enqueue, hfull]
    simp
  rw [h1, h2]
  exact ⟨rfl, rfl, rfl, hx⟩

/-- A concrete queued message, distinguished by its QoS. -/
def qm (n : ℕ) : QMsg :=
  { topic := "agri/sensors/dev1/data", payload := .malformed "bad",
    timestamp := 0, qos := n }

/-- Witness for C3 at capacity 2. -/
theorem C3_full_queue_drops_witness :
    [qm 0, qm 1].foldl (enqueue 2) [] = [qm 0, qm 1] ∧
    enqueue 2 ([qm 0, qm 1].foldl (enqueue 2) []) (qm 2) = [qm 0, qm 1] ∧
    drain (enqueue 2 ([qm 0, qm 1].foldl (enqueue 2) []) (qm 2))
      = [qm 0, qm 1] ∧
    qm 2 ∉ drain (enqueue 2 ([qm 0, qm 1].foldl (enqueue 2) []) (qm 2)) :=
  C3_full_queue_drops 2 [qm 0, qm 1] (qm 2) (by norm_num) (by decide)
    (by decide)

/-- A filter and its negation split a list's length. -/
theorem length_filter_add_length_filter_not {α : Type} (p : α → Bool)
    (l : List α) :
    (l.filter p).length + (l.filter fun a => !p a).length = l.length := by
  induction l with
  | nil => rfl
  | cons a t ih =>
    cases h : p a <;> simp [List.filter_cons, h] <;> omega

/-- C4 (amended): the sweep removes from both tables exactly the rows older
than the horizon, but the count it reports — and logs when positive — is
only the number of rows removed from the alerts table (the rowcount of the
last DELETE), not the total over both tables. -/
theorem C4_cleanup_scope_and_count (now : ℚ) (d : ℕ) (db : DB) :
    (∀ r ∈ (cleanup_old_data now d db).1.sensor_data,
        ¬ r.timestamp < now - d) ∧
    (∀ r ∈ db.sensor_data, ¬ r.timestamp < now - d →
        r ∈ (cleanup_old_data now d db).1.sensor_data) ∧
    (∀ r ∈ (cleanup_old_data now d db).1.alerts,
        ¬ r.timestamp < now - d) ∧
    (∀ r ∈ db.alerts, ¬ r.timestamp < now - d →
        r ∈ (cleanup_old_data now d db).1.alerts) ∧
    (cleanup_old_data now d db).2.1 =
      db.alerts.length - (cleanup_old_data now d db).1.alerts.length ∧
    ((cleanup_old_data now d db).2.2 ≠ [] ↔
      0 < (cleanup_old_data now d db).2.1) := by
  simp only [cleanup_old_data]
  refine ⟨?_, ?_, ?_, ?_, ?_, ?_⟩
  · intro r hr
    have h := (List.mem_filter.mp hr).2
    simpa using h
  · intro r hr hts
    exact List.mem_filter.mpr ⟨hr, by simpa using hts⟩
  · intro r hr
    have h := (List.mem_filter.mp hr).2
    simpa using h
  · intro r hr hts
    exact List.mem_filter.mpr ⟨hr, by simpa using hts⟩
  · have h := length_filter_add_length_filter_not
      (fun r : AlertRow => decide (r.timestamp < now - d)) db.alerts
    omega
  · split_ifs with h
    · simpa using h
    · simpa using h

/-- Witness for C4 at a concrete store: a one-day-old alert row survives a
three-day sweep, and the reported count matches the alerts-table removals. -/
theorem C4_cleanup_scope_and_count_witness :
    mkAlertRow 1 (-1) false
        ∈ (cleanup_old_data 0 3 ⟨[], [mkAlertRow 1 (-1) false]⟩).1.alerts ∧
    (cleanup_old_data 0 3 ⟨[], [mkAlertRow 1 (-1) false]⟩).2.1 =
      [mkAlertRow 1 (-1) false].length -
        (cleanup_old_data 0 3 ⟨[], [mkAlertRow 1 (-1) false]⟩).1.alerts.length :=
  ⟨(C4_cleanup_scope_and_count 0 3 ⟨[], [mkAlertRow 1 (-1) false]⟩).2.2.2.1
      (mkAlertRow 1 (-1) false) (by simp) (by norm_num [mkAlertRow]),
   (C4_cleanup_scope_and_count 0 3 ⟨[], [mkAlertRow 1 (-1) false]⟩).2.2.2.2.1⟩

/-- C4 counterexample: one sensor row 31 days old and no alert rows; the
sweep removes one row in total, yet reports a count of 0 and logs nothing —
refuting that the reported count is the total number of rows removed and
that a positive removal is always logged. -/
theorem C4_total_count_counterexample :
    (cleanup_old_data 0 30 ⟨[mkSensorRow 1 (-31)], []⟩).1.sensor_data
      = [] ∧
    ([mkSensorRow 1 (-31)].length +
        ([] : List AlertRow).length) -
      ((cleanup_old_data 0 30 ⟨[mkSensorRow 1 (-31)], []⟩).1.sensor_data.length
        + (cleanup_old_data 0 30
            ⟨[mkSensorRow 1 (-31)], []⟩).1.alerts.length) = 1 ∧
    (cleanup_old_data 0 30 ⟨[mkSensorRow 1 (-31)], []⟩).2.1 = 0 ∧
    (cleanup_old_data 0 30 ⟨[mkSensorRow 1 (-31)], []⟩).2.2 = [] := by
  have h31 : ((mkSensorRow 1 (-31)).timestamp) < (-30 : ℚ) := by
    norm_num [mkSensorRow]
  have h31n : ¬ ((-30 : ℚ) ≤ (mkSensorRow 1 (-31)).timestamp) :=
    not_le.mpr h31
  simp [cleanup_old_data, List.filter_cons, h31, h31n]

/-- C5: with the default 30-day horizon, one sweep removes every row of
either table timestamped 31 days in the past and keeps every row
timestamped 29 days in the past. -/
theorem C5_retention_sweep_30_days (now : ℚ) (db : DB) :
    (∀ r ∈ db.sensor_data, r.timestamp = now - 31 →
        r ∉ (cleanup_old_data now 30 db).1.sensor_data) ∧
    (∀ r ∈ db.alerts, r.timestamp = now - 31 →
        r ∉ (cleanup_old_data now 30 db).1.alerts) ∧
    (∀ r ∈ db.sensor_data, r.timestamp = now - 29 →
        r ∈ (cleanup_old_data now 30 db).1.sensor_data) ∧
    (∀ r ∈ db.alerts, r.timestamp = now - 29 →
        r ∈ (cleanup_old_data now 30 db).1.alerts) := by
  simp only [cleanup_old_data]
  refine ⟨?_, ?_, ?_, ?_⟩
  · intro r _ hts hmem
    have h := (List.mem_filter.mp hmem).2
    rw [hts] at h
    simp at h
    linarith
  · intro r _ hts hmem
    have h := (List.mem_filter.mp hmem).2
    rw [hts] at h
    simp at h
    linarith
  · intro r hr hts
    refine List.mem_filter.mpr ⟨hr, ?_⟩
    rw [hts]
    simp
    linarith
  · intro r hr hts
    refine List.mem_filter.mpr ⟨hr, ?_⟩
    rw [hts]
    simp
    linarith

/-- Witness for C5 at a concrete store holding one 31-day-old and one
29-day-old sensor row. -/
theorem C5_retention_sweep_30_days_witness :
    mkSensorRow 1 (-31) ∉
      (cleanup_old_data 0 30
        ⟨[mkSensorRow 1 (-31), mkSensorRow 2 (-29)], []⟩).1.sensor_data ∧
    mkSensorRow 2 (-29) ∈
      (cleanup_old_data 0 30
        ⟨[mkSensorRow 1 (-31), mkSensorRow 2 (-29)], []⟩).1.sensor_data :=
  ⟨(C5_retention_sweep_30_days 0
      ⟨[mkSensorRow 1 (-31), mkSensorRow 2 (-29)], []⟩).1
    (mkSensorRow 1 (-31)) (by simp) (by norm_num [mkSensorRow]),
   (C5_retention_sweep_30_days 0
      ⟨[mkSensorRow 1 (-31), mkSensorRow 2 (-29)], []⟩).2.2.1
    (mkSensorRow 2 (-29)) (by simp) (by norm_num [mkSensorRow])⟩

/-- Membership in a descending insertion. -/
theorem mem_insertDescBy {α : Type} (ts : α → ℚ) (a b : α) (l : List α) :
    a ∈ insertDescBy ts b l ↔ a = b ∨ a ∈ l := by
  induction l with
  | nil => simp [insertDescBy]
  | cons c t ih =>
    rw [insertDescBy]
    split_ifs with h
    · simp
    · simp only [List.mem_cons, ih]
      tauto

/-- The descending sort is a permutation of its input for membership. -/
theorem mem_sortDescBy {α : Type} (ts : α → ℚ) (a : α) (l : List α) :
    a ∈ sortDescBy ts l ↔ a ∈ l := by
  induction l with
  | nil => simp [sortDescBy]
  | cons c t ih =>
    show a ∈ insertDescBy ts c (sortDescBy ts t) ↔ _
    rw [mem_insertDescBy, ih]
    simp

/-- Mapping an idempotent function twice is mapping it once. -/
theorem map_map_of_idem {α : Type} (f : α → α) (hf : ∀ x, f (f x) = f x)
    (l : List α) : (l.map f).map f = l.map f := by
  induction l with
  | nil => rfl
  | cons a t ih => simp [hf, ih]

/-- C7: acknowledging an alert id present in the alerts table removes every
row with that id from the result of any subsequent `get_active_alerts`, and
acknowledging the same id a second time leaves the table unchanged from the
first acknowledgement. -/
theorem C7_acknowledge_removes_and_idempotent (alerts : List AlertRow)
    (alert_id : ℕ) (hmem : alert_id ∈ alerts.map AlertRow.id) :
    (∀ r ∈ get_active_alerts (.ok (acknowledge_alert alert_id alerts)),
        r.id ≠ alert_id) ∧
    acknowledge_alert alert_id (acknowledge_alert alert_id alerts) =
      acknowledge_alert alert_id alerts := by
  constructor
  · intro r hr hid
    have h1 : r ∈ sortDescBy AlertRow.timestamp
        ((acknowledge_alert alert_id alerts).filter
          fun r => r.acknowledged == false) := by
      have := hr
      simp only [get_active_alerts, activeAlertsQuery] at this
      exact List.mem_of_mem_take this
    have h2 := (mem_sortDescBy _ _ _).mp h1
    have h3 := List.mem_filter.mp h2
    have hack : r.acknowledged = false := by simpa using h3.2
    obtain ⟨a, _, hfa⟩ := List.mem_map.mp (by
      simpa only [acknowledge_alert] using h3.1)
    by_cases hcase : a.id = alert_id
    · rw [if_pos hcase] at hfa
      rw [← hfa] at hack
      simp at hack
    · rw [if_neg hcase] at hfa
      rw [← hfa] at hid
      exact hcase hid
  · simp only [acknowledge_alert]
    refine map_map_of_idem _ ?_ alerts
    intro x
    by_cases hcase : x.id = alert_id
    · simp [hcase]
    · simp [hcase]

/-- Witness for C7: acknowledging a present id twice equals acknowledging
it once. -/
theorem C7_acknowledge_removes_and_idempotent_witness :
    acknowledge_alert 1 (acknowledge_alert 1 [mkAlertRow 1 0 false]) =
      acknowledge_alert 1 [mkAlertRow 1 0 false] :=
  (C7_acknowledge_removes_and_idempotent [mkAlertRow 1 0 false] 1
    (by simp [mkAlertRow])).2

/-- C10: `get_latest_data` and `get_active_alerts` are total — a failure of
the underlying storage query is caught, and each returns the empty list. -/
theorem C10_queries_swallow_errors (e : String) (dev : Option String) :
    get_latest_data (.error e) dev = [] ∧
    get_active_alerts (.error e) = [] :=
  ⟨rfl, rfl⟩

/-- C9: a nested location structure with present `lat`/`lon` is copied
verbatim into the latitude/longitude outputs — no range check and no
numeric coercion (the values need not even be numbers) — and the two
non-null copies raise the quality score by exactly `2/9` over the same
reading without a location (they join the numerator; the denominator is
the fixed nine recognized fields either way). -/
theorem C9_location_copied_verbatim (data : RawData) (lv ln : RawVal)
    (hloc : data.location = some ⟨some lv, some ln⟩) :
    (validate_sensor_data data).latitude = some lv ∧
    (validate_sensor_data data).longitude = some ln ∧
    (validate_sensor_data data).data_quality =
      (validate_sensor_data { data with location := none }).data_quality
        + 2 / 9 := by
  refine ⟨by simp [validate_sensor_data, hloc],
    by simp [validate_sensor_data, hloc], ?_⟩
  simp only [validate_sensor_data, hloc]
  norm_num [List.count_cons]
  ring

/-- A raw reading with no sensor fields and a non-numeric `lat`. -/
def c9data : RawData :=
  { temperature := none, humidity := none, soil_moisture := none,
    ph_level := none, light_intensity := none, battery_level := none,
    signal_strength := none,
    location := some ⟨some (.bad "12.3abc"), some (.num 77)⟩ }

/-- Witness for C9: a string latitude on which `float` would fail is copied
unchanged and still counted. -/
theorem C9_location_copied_verbatim_witness :
    (validate_sensor_data c9data).latitude = some (.bad "12.3abc") ∧
    (validate_sensor_data c9data).longitude = some (.num 77) ∧
    (validate_sensor_data c9data).data_quality =
      (validate_sensor_data { c9data with location := none }).data_quality
        + 2 / 9 :=
  C9_location_copied_verbatim c9data (.bad "12.3abc") (.num 77) rfl

/-- C8 (amended): a queued message whose payload fails to parse is logged
and discarded — the store and the statistics are untouched, only an error
log line is appended — and the rest of the batch is processed exactly as if
the malformed message were replaced by its log line; no error counter is
incremented. -/
theorem C8_malformed_logged_and_skipped (now : ℚ) (st : MgrState)
    (pre post : List QMsg) (msg : QMsg) (e : String)
    (h : msg.payload = .malformed e) :
    (process_sensor_message now (process_queued now st pre) msg).db =
      (process_queued now st pre).db ∧
    (process_sensor_message now (process_queued now st pre) msg).stats =
      (process_queued now st pre).stats ∧
    (process_sensor_message now (process_queued now st pre) msg).logs =
      (process_queued now st pre).logs ++
        ["Invalid JSON in message: " ++ e] ∧
    process_queued now st (pre ++ msg :: post) =
      process_queued now
        { process_queued now st pre with
            logs := (process_queued now st pre).logs ++
              ["Invalid JSON in message: " ++ e] } post := by
  have hm : ∀ s : MgrState, process_sensor_message now s msg =
      { s with logs := s.logs ++ ["Invalid JSON in message: " ++ e] } := by
    intro s
    simp [process_sensor_message, h]
  refine ⟨by rw [hm], by rw [hm], by rw [hm], ?_⟩
  rw [process_queued, List.foldl_append, List.foldl_cons, hm]
  rfl

/-- A queued message whose payload raises `json.JSONDecodeError`. -/
def c8msg : QMsg :=
  { topic := "agri/sensors/dev1/data",
    payload := .malformed "Expecting value: line 1 column 1 (char 0)",
    timestamp := 0, qos := 0 }

/-- A manager state with some prior statistics and an empty store. -/
def c8state : MgrState :=
  { stats := { messages_received := 5, messages_processed := 3 },
    db := ⟨[], []⟩, logs := [] }

/-- Witness for C8 at a concrete malformed message: statistics unchanged. -/
theorem C8_malformed_logged_and_skipped_witness :
    (process_sensor_message 0 (process_queued 0 c8state []) c8msg).stats =
      (process_queued 0 c8state []).stats :=
  (C8_malformed_logged_and_skipped 0 c8state [] [] c8msg
    "Expecting value: line 1 column 1 (char 0)" rfl).2.1

/-- C8 counterexample: processing a malformed message leaves every
statistic of the manager exactly as before — `messages_received` stays 5
and `messages_processed` stays 3, the store is untouched, and the only
effect is the error log line; no error counter of any kind is
incremented. -/
theorem C8_no_error_counter_counterexample :
    (process_sensor_message 0 c8state c8msg).stats = c8state.stats ∧
    (process_sensor_message 0 c8state c8msg).stats.messages_received = 5 ∧
    (process_sensor_message 0 c8state c8msg).stats.messages_processed = 3 ∧
    (process_sensor_message 0 c8state c8msg).db = c8state.db ∧
    (process_sensor_message 0 c8state c8msg).logs =
      ["Invalid JSON in message: Expecting value: line 1 column 1 (char 0)"]
    := by
  simp [process_sensor_message, c8msg, c8state]

/-- Each validated field is the range validation of the corresponding raw
field against its `ranges` entry. -/
theorem validatedField_validate (f : FieldId) (data : RawData) :
    validatedField f (validate_sensor_data data) =
      validateField (fieldRange f).1 (fieldRange f).2 (rawField f data) := by
  cases f <;> rfl

/-- C6: a raw reading whose recognized fields are all present, with exactly
one of the seven range-checked fields outside its documented range, yields
an output in which only that field is null — every sibling field, including
the flattened latitude/longitude, equals its input value — and the quality
score is `(9-1)/9 = 8/9`. -/
theorem C6_single_out_of_range_nulled (data : RawData) (f : FieldId)
    (q : ℚ) (lv ln : RawVal)
    (hf : rawField f data = some (.num q))
    (hout : ¬ ((fieldRange f).1 ≤ q ∧ q ≤ (fieldRange f).2))
    (hothers : ∀ g, g ≠ f → ∃ x : ℚ, rawField g data = some (.num x) ∧
        (fieldRange g).1 ≤ x ∧ x ≤ (fieldRange g).2)
    (hloc : data.location = some ⟨some lv, some ln⟩) :
    validatedField f (validate_sensor_data data) = none ∧
    (∀ g, g ≠ f → ∀ x : ℚ, rawField g data = some (.num x) →
        validatedField g (validate_sensor_data data) = some x) ∧
    (validate_sensor_data data).latitude = some lv ∧
    (validate_sensor_data data).longitude = some ln ∧
    (validate_sensor_data data).data_quality = 8 / 9 := by
  have hnull : validatedField f (validate_sensor_data data) = none := by
    rw [validatedField_validate, hf]
    simp [validateField, pyFloat, hout]
  have hkeep : ∀ g, g ≠ f → ∀ x : ℚ, rawField g data = some (.num x) →
      validatedField g (validate_sensor_data data) = some x := by
    intro g hg x hx
    obtain ⟨y, hy, hy1, hy2⟩ := hothers g hg
    rw [hx] at hy
    simp only [Option.some.injEq, RawVal.num.injEq] at hy
    subst hy
    rw [validatedField_validate, hx]
    simp [validateField, pyFloat, hy1, hy2]
  have hiso : ∀ g, (validatedField g (validate_sensor_data data)).isSome =
      decide (g ≠ f) := by
    intro g
    by_cases hg : g = f
    · subst hg
      rw [hnull]
      simp
    · obtain ⟨y, hy, _, _⟩ := hothers g hg
      rw [hkeep g hg y hy]
      simp [hg]
  have hft := hiso .temperature
  have hfh := hiso .humidity
  have hfm := hiso .soil_moisture
  have hfp := hiso .ph_level
  have hfl := hiso .light_intensity
  have hfb := hiso .battery_level
  have hfs := hiso .signal_strength
  rw [validatedField_validate] at hft hfh hfm hfp hfl hfb hfs
  simp only [rawField, fieldRange] at hft hfh hfm hfp hfl hfb hfs
  refine ⟨hnull, hkeep, by simp [validate_sensor_data, hloc],
    by simp [validate_sensor_data, hloc], ?_⟩
  simp only [validate_sensor_data, hloc]
  rw [hft, hfh, hfm, hfp, hfl, hfb, hfs]
  cases f <;> norm_num [List.count_cons] <;> simp <;> norm_num

/-- A raw reading with every field present and only the temperature out of
range. -/
def c6data : RawData :=
  { temperature := some (.num 100), humidity := some (.num 50),
    soil_moisture := some (.num 40), ph_level := some (.num 7),
    light_intensity := some (.num 500), battery_level := some (.num 90),
    signal_strength := some (.num (-60)),
    location := some ⟨some (.num 1), some (.num 2)⟩ }

/-- Witness for C6: temperature 100 is nulled alone; quality is 8/9. -/
theorem C6_single_out_of_range_nulled_witness :
    validatedField .temperature (validate_sensor_data c6data) = none ∧
    (validate_sensor_data c6data).data_quality = 8 / 9 := by
  have h := C6_single_out_of_range_nulled c6data .temperature 100
    (.num 1) (.num 2) rfl (by norm_num [fieldRange])
    (by
      intro g hg
      cases g with
      | temperature => exact absurd rfl hg
      | humidity => exact ⟨50, rfl, by norm_num [fieldRange], by norm_num [fieldRange]⟩
      | soil_moisture => exact ⟨40, rfl, by norm_num [fieldRange], by norm_num [fieldRange]⟩
      | ph_level => exact ⟨7, rfl, by norm_num [fieldRange], by norm_num [fieldRange]⟩
      | light_intensity => exact ⟨500, rfl, by norm_num [fieldRange], by norm_num [fieldRange]⟩
      | battery_level => exact ⟨90, rfl, by norm_num [fieldRange], by norm_num [fieldRange]⟩
      | signal_strength => exact ⟨-60, rfl, by norm_num [fieldRange], by norm_num [fieldRange]⟩)
    rfl
  exact ⟨h.1, h.2.2.2.2⟩

end IoTDataManager
